import Mathlib

/-!
Verification of the `digest` command-line utility (`src/main.rs`).

The program computes a SHA-256 or SHA-512 digest for each file named on the
command line, printing `<hex-digest>: <path>` for each success.  This file is a
shallow embedding of the program: bytes are `Nat` below 256, machine words are
`Nat` reduced modulo `2 ^ 32` or `2 ^ 64`, the file system is an explicit value
passed to every function that performs I/O in the original, and the side
effects of the driver (stat calls, file opens, printed lines) are reified as
values and event traces.

The hashing itself is done by the `sha2` crate in the original; its behaviour
(FIPS 180-4 SHA-256 and SHA-512) is embedded here in full, with the round
constants and initial chaining values derived, as FIPS 180-4 defines them,
from the cube and square roots of the first eighty primes.
-/

set_option maxRecDepth 8000

namespace Digest

/-- Hexadecimal digit characters as produced by Rust's `{:x}` formatting:
`0`-`9` for values below ten, lowercase `a`-`f` for ten to fifteen. -/
def hexDigitChar (n : Nat) : Char :=
  if n < 10 then Char.ofNat (48 + n) else Char.ofNat (87 + n)

/-- Embedding of `format!("{:02x}", b)` for a byte `b`: two zero-padded
lowercase hexadecimal digits. -/
def byteToHex (b : Nat) : String :=
  String.mk [hexDigitChar (b / 16), hexDigitChar (b % 16)]

/-- Embedding of `fn to_hex_lowercase(vec_hash: &[u8]) -> String`
(`src/main.rs:119-121`): `vec_hash.iter().map(|b| format!("{:02x}", b)).collect()`. -/
def to_hex_lowercase (vec_hash : List Nat) : String :=
  String.join (vec_hash.map byteToHex)

/-- Big-endian byte serialisation: the `n` bytes of `v`, most significant
first.  Used for SHA-2 length fields and digest words. -/
def beBytes (n v : Nat) : List Nat :=
  (List.range n).map (fun i => (v >>> (8 * (n - 1 - i))) % 256)

/-- Fuelled worker for `chunks`. -/
def chunksGo (n : Nat) : Nat → List Nat → List (List Nat)
  | 0, _ => []
  | _, [] => []
  | fuel + 1, l => l.take n :: chunksGo n fuel (l.drop n)

/-- Splits a byte list into consecutive chunks of `n` bytes (the last chunk may
be shorter when the length is not a multiple of `n`). -/
def chunks (n : Nat) (l : List Nat) : List (List Nat) :=
  chunksGo n l.length l

/-- Reads a big-endian word from a list of bytes. -/
def wordBE (l : List Nat) : Nat :=
  l.foldl (fun acc b => acc * 256 + b) 0

/-- Parses a byte list into big-endian words of `wb` bytes each. -/
def bytesToWordsBE (wb : Nat) (l : List Nat) : List Nat :=
  (chunks wb l).map wordBE

/-- FIPS 180-4 padding: append `0x80`, zero bytes up to the last `lenB` bytes
of the block, then the bit length of the message, big-endian, in `lenB` bytes
(`lenB = 8` for SHA-256, `16` for SHA-512). -/
def padMessage (blockSize lenB : Nat) (msg : List Nat) : List Nat :=
  let padZeros := (blockSize - ((msg.length + 1 + lenB) % blockSize)) % blockSize
  msg ++ 0x80 :: (List.replicate padZeros 0 ++ beBytes lenB (8 * msg.length))

/-- Right rotation of an unsigned `bits`-bit word held in a `Nat`. -/
def rotr (bits n x : Nat) : Nat :=
  ((x >>> n) ||| (x <<< (bits - n))) % (2 ^ bits)

/-- The sigma functions of SHA-2: two right rotations and a right shift,
combined with exclusive or. -/
def smallSigma (bits r1 r2 sh x : Nat) : Nat :=
  rotr bits r1 x ^^^ rotr bits r2 x ^^^ (x >>> sh)

/-- The big Sigma functions of SHA-2: three right rotations combined with
exclusive or. -/
def bigSigma (bits r1 r2 r3 x : Nat) : Nat :=
  rotr bits r1 x ^^^ rotr bits r2 x ^^^ rotr bits r3 x

/-- The eight working variables of a SHA-2 compression round. -/
structure Hash8 where
  va : Nat
  vb : Nat
  vc : Nat
  vd : Nat
  ve : Nat
  vf : Nat
  vg : Nat
  vh : Nat
deriving DecidableEq

/-- Loads the eight chaining words into the working variables. -/
def Hash8.ofList : List Nat → Hash8
  | [a, b, c, d, e, f, g, h] => ⟨a, b, c, d, e, f, g, h⟩
  | _ => ⟨0, 0, 0, 0, 0, 0, 0, 0⟩

/-- The working variables as a list, `a` first. -/
def Hash8.toList (s : Hash8) : List Nat :=
  [s.va, s.vb, s.vc, s.vd, s.ve, s.vf, s.vg, s.vh]

/-- One SHA-2 compression round: `kw` is the round constant paired with the
scheduled message word, arithmetic is modulo `2 ^ bits`. -/
def shaStep (bits : Nat) (bigS0 bigS1 : Nat → Nat) (s : Hash8) (kw : Nat × Nat) : Hash8 :=
  let M := 2 ^ bits
  let ch := (s.ve &&& s.vf) ^^^ ((s.ve ^^^ (M - 1)) &&& s.vg)
  let t1 := (s.vh + bigS1 s.ve + ch + kw.1 + kw.2) % M
  let maj := (s.va &&& s.vb) ^^^ (s.va &&& s.vc) ^^^ (s.vb &&& s.vc)
  let t2 := (bigS0 s.va + maj) % M
  ⟨(t1 + t2) % M, s.va, s.vb, s.vc, (s.vd + t1) % M, s.ve, s.vf, s.vg⟩

/-- Message-schedule extension: starting from the sixteen block words, append
`count` further words `W[t] = W[t-16] + s0 W[t-15] + W[t-7] + s1 W[t-2]`
modulo `M`. -/
def extendSchedule (M : Nat) (s0 s1 : Nat → Nat) (count : Nat) (w : List Nat) : List Nat :=
  (List.range count).foldl
    (fun w i =>
      let t := i + 16
      w ++ [(w.getD (t - 16) 0 + s0 (w.getD (t - 15) 0) + w.getD (t - 7) 0
              + s1 (w.getD (t - 2) 0)) % M])
    w

/-- The parameters distinguishing SHA-256 from SHA-512: word size, block size,
length-field size, round constants, initial chaining value and the four sigma
functions. -/
structure ShaParams where
  bits : Nat
  blockBytes : Nat
  lenBytes : Nat
  k : List Nat
  h0 : List Nat
  s0 : Nat → Nat
  s1 : Nat → Nat
  bigS0 : Nat → Nat
  bigS1 : Nat → Nat

/-- Compression of one message block into the chaining value `h`. -/
def shaCompress (p : ShaParams) (h : List Nat) (block : List Nat) : List Nat :=
  let M := 2 ^ p.bits
  let w := extendSchedule M p.s0 p.s1 (p.k.length - 16) (bytesToWordsBE (p.bits / 8) block)
  let fin := (p.k.zip w).foldl (shaStep p.bits p.bigS0 p.bigS1) (Hash8.ofList h)
  List.zipWith (fun x y => (x + y) % M) h fin.toList

/-- Serialises the chaining words into digest bytes, big-endian, `wb` bytes per
word. -/
def wordsToBytes (wb : Nat) : List Nat → List Nat
  | [] => []
  | w :: rest => beBytes wb w ++ wordsToBytes wb rest

/-- The full SHA-2 digest pipeline: pad, split into blocks, fold the
compression function from the initial chaining value, serialise. -/
def shaDigest (p : ShaParams) (msg : List Nat) : List Nat :=
  wordsToBytes (p.bits / 8)
    ((chunks p.blockBytes (padMessage p.blockBytes p.lenBytes msg)).foldl (shaCompress p) p.h0)

/-- The first 80 primes; FIPS 180-4 defines the SHA-2 round constants and
initial chaining values from their cube and square roots. -/
def primes80 : List Nat := [
  2, 3, 5, 7, 11, 13, 17, 19, 23, 29, 31, 37, 41, 43, 47, 53,
  59, 61, 67, 71, 73, 79, 83, 89, 97, 101, 103, 107, 109, 113, 127, 131,
  137, 139, 149, 151, 157, 163, 167, 173, 179, 181, 191, 193, 197, 199, 211, 223,
  227, 229, 233, 239, 241, 251, 257, 263, 269, 271, 277, 281, 283, 293, 307, 311,
  313, 317, 331, 337, 347, 349, 353, 359, 367, 373, 379, 383, 389, 397, 401, 409]

/-- The first `count` of the 80 primes above. -/
def firstPrimes (count : Nat) : List Nat :=
  primes80.take count

/-- Bisection worker for the integer square root, maintaining
`lo ^ 2 <= n < hi ^ 2`. -/
def isqrtGo (n : Nat) : Nat → Nat → Nat → Nat
  | 0, lo, _ => lo
  | fuel + 1, lo, hi =>
    let mid := (lo + hi) / 2
    if mid = lo then lo
    else if mid * mid <= n then isqrtGo n fuel mid hi
    else isqrtGo n fuel lo mid

/-- Floor of the square root of `n` (256 bisection steps cover every `n` used
here). -/
def isqrt (n : Nat) : Nat :=
  isqrtGo n 256 0 (n + 1)

/-- Bisection worker for the integer cube root, maintaining
`lo ^ 3 <= n < hi ^ 3`. -/
def icbrtGo (n : Nat) : Nat → Nat → Nat → Nat
  | 0, lo, _ => lo
  | fuel + 1, lo, hi =>
    let mid := (lo + hi) / 2
    if mid = lo then lo
    else if mid * mid * mid <= n then icbrtGo n fuel mid hi
    else icbrtGo n fuel lo mid

/-- Floor of the cube root of `n` (256 bisection steps cover every `n` used
here). -/
def icbrt (n : Nat) : Nat :=
  icbrtGo n 256 0 (n + 1)

/-- The SHA-2 round constants for a word size of `wordBits`: the first
`wordBits` bits of the fractional parts of the cube roots of the first
`count` primes (FIPS 180-4), obtained exactly as
`floor(cbrt(p) * 2 ^ wordBits) mod 2 ^ wordBits = icbrt(p * 2 ^ (3 * wordBits)) mod 2 ^ wordBits`. -/
def shaK (wordBits count : Nat) : List Nat :=
  (firstPrimes count).map (fun p => icbrt (p * 2 ^ (3 * wordBits)) % 2 ^ wordBits)

/-- The SHA-2 initial chaining value for a word size of `wordBits`: the first
`wordBits` bits of the fractional parts of the square roots of the first
eight primes (FIPS 180-4). -/
def shaH0 (wordBits : Nat) : List Nat :=
  (firstPrimes 8).map (fun p => isqrt (p * 2 ^ (2 * wordBits)) % 2 ^ wordBits)

/-- The 64 SHA-256 round constants `0x428a2f98, 0x71374491, ...`. -/
def K256 : List Nat := shaK 32 64

/-- The SHA-256 initial chaining value `0x6a09e667, ...`. -/
def H256init : List Nat := shaH0 32

/-- The 80 SHA-512 round constants. -/
def K512 : List Nat := shaK 64 80

/-- The SHA-512 initial chaining value. -/
def H512init : List Nat := shaH0 64


/-- The SHA-256 instance: 32-bit words, 64-byte blocks, 8-byte length field,
64 rounds. -/
def sha256params : ShaParams where
  bits := 32
  blockBytes := 64
  lenBytes := 8
  k := K256
  h0 := H256init
  s0 := smallSigma 32 7 18 3
  s1 := smallSigma 32 17 19 10
  bigS0 := bigSigma 32 2 13 22
  bigS1 := bigSigma 32 6 11 25

/-- The SHA-512 instance: 64-bit words, 128-byte blocks, 16-byte length field,
80 rounds. -/
def sha512params : ShaParams where
  bits := 64
  blockBytes := 128
  lenBytes := 16
  k := K512
  h0 := H512init
  s0 := smallSigma 64 1 8 7
  s1 := smallSigma 64 19 61 6
  bigS0 := bigSigma 64 28 34 39
  bigS1 := bigSigma 64 14 18 41

/-- SHA-256 of a byte sequence; models `sha2::Sha256` fed by `io::copy`. -/
def sha256 (msg : List Nat) : List Nat :=
  shaDigest sha256params msg

/-- SHA-512 of a byte sequence; models `sha2::Sha512` fed by `io::copy`. -/
def sha512 (msg : List Nat) : List Nat :=
  shaDigest sha512params msg

/-- What a path denotes in the file-system model, after symbolic links have
been followed: a regular file with its content, a directory, or some other
kind of entry (socket, device, ...). -/
inductive FsNode where
  | file (content : List Nat)
  | dir
  | special
deriving DecidableEq

/-- The file-system state an invocation runs against.  `lookup` models the
metadata (`stat`-style) queries behind `Utf8Path::is_file` / `is_dir`;
`readResult` models `File::open` followed by `io::copy`, which either yields
the bytes read or an I/O error message.  The two are separate fields because
the original program re-opens the file after classifying it, and the open or a
read may fail even for a path that classified as a regular file. -/
structure FileSystem where
  lookup : String → Option FsNode
  readResult : String → Except String (List Nat)

/-- Embedding of `camino::Utf8Path::is_file` (metadata says regular file,
symlinks followed). -/
def FileSystem.is_file (fs : FileSystem) (p : String) : Bool :=
  match fs.lookup p with
  | some (FsNode.file _) => true
  | _ => false

/-- Embedding of `camino::Utf8Path::is_dir` (metadata says directory,
symlinks followed). -/
def FileSystem.is_dir (fs : FileSystem) (p : String) : Bool :=
  match fs.lookup p with
  | some FsNode.dir => true
  | _ => false

/-- Embedding of `enum DigestType` (`src/main.rs:8-13`). -/
inductive DigestType where
  | SHA256
  | SHA512
deriving DecidableEq

/-- Embedding of `struct CheckedFile` (`src/main.rs:17-23`): the path as given
on the command line, and `Ok(())` or `Err(msg)` from the classification. -/
structure CheckedFile where
  file_path : String
  hashable : Except String Unit

/-- Embedding of `CheckedFile::new` (`src/main.rs:33-50`): `is_file`, then
`is_dir`, then the fallback; the error messages embed the path exactly as the
two `format!` calls do. -/
def CheckedFile.new (fs : FileSystem) (path : String) : CheckedFile :=
  if fs.is_file path then
    { file_path := path, hashable := Except.ok () }
  else if fs.is_dir path then
    { file_path := path, hashable := Except.error (path ++ ": is a directory, not a file") }
  else
    { file_path := path, hashable := Except.error (path ++ ": is not a directory or a file") }

/-- Embedding of `calculate_hash::<D>` (`src/main.rs:103-109`), with the
digest primitive `D` passed as the function `hashFn`: open and fully stream
the file (either step may fail with an I/O error), finalise, hex-encode. -/
def calculate_hash (fs : FileSystem) (hashFn : List Nat → List Nat) (path_buf : String) :
    Except String String :=
  match fs.readResult path_buf with
  | Except.error e => Except.error e
  | Except.ok content => Except.ok (to_hex_lowercase (hashFn content))

/-- Embedding of `perform_hash` (`src/main.rs:96-101`): dispatch on the
algorithm. -/
def perform_hash (fs : FileSystem) (path_buf : String) (digest : DigestType) :
    Except String String :=
  match digest with
  | DigestType.SHA256 => calculate_hash fs sha256 path_buf
  | DigestType.SHA512 => calculate_hash fs sha512 path_buf

/-- The two output streams of the process. -/
inductive OutChannel where
  | stdout
  | stderr
deriving DecidableEq

/-- One printed line, tagged with the stream it goes to. -/
structure OutLine where
  chan : OutChannel
  text : String
deriving DecidableEq

/-- Embedding of `hash_file` (`src/main.rs:89-94`): both the success line and
the error line go to standard output (`println!`). -/
def hash_file (fs : FileSystem) (path_buf : String) (digest : DigestType) : OutLine :=
  match perform_hash fs path_buf digest with
  | Except.ok hash_value => ⟨OutChannel.stdout, hash_value ++ ": " ++ path_buf⟩
  | Except.error e => ⟨OutChannel.stdout, path_buf ++ ": error during hashing: " ++ e⟩

/-- Embedding of `hash_files` (`src/main.rs:76-87`): the `for` loop over the
checked files, each iteration printing exactly one line — `hash_file`'s line
for a hashable path, or `eprintln!("{}: unable to hash this file", err)` on
standard error for a rejected one. -/
def hash_files (fs : FileSystem) (files : List CheckedFile) (digest : DigestType) :
    List OutLine :=
  match files with
  | [] => []
  | file :: rest =>
    (match file.hashable with
     | Except.ok _ => hash_file fs file.file_path digest
     | Except.error err => ⟨OutChannel.stderr, err ++ ": unable to hash this file"⟩)
      :: hash_files fs rest digest

/-- Embedding of the parsed `struct Cli` (`src/main.rs:55-62`): the selected
algorithm and the list of `FILE` arguments. -/
structure Cli where
  digest : DigestType
  filename : List String

/-- The lines printed by `main` (`src/main.rs:64-74`) after a successful
argument parse: classify every argument (the `collect` into
`Vec<CheckedFile>`), then run `hash_files`. -/
def main_output (fs : FileSystem) (args : Cli) : List OutLine :=
  hash_files fs (args.filename.map (CheckedFile.new fs)) args.digest

/-- Process-level model of an invocation.  `parsed` is the outcome of
`Cli::parse()`: `none` means clap rejected the arguments, printed its own
diagnostics and exited with a non-zero status (2, per clap's convention);
`some args` means `main` runs to completion — it returns `()` on every path,
so the process exit status is 0. -/
def run_program (fs : FileSystem) (parsed : Option Cli) : Nat × List OutLine :=
  match parsed with
  | none => (2, [])
  | some args => (0, main_output fs args)

/-- The observable side effects of one invocation, in the order the program
performs them: a metadata query per argument (`classify`), a file open
(`openFile`) and a printed line (`output`). -/
inductive Event where
  | classify (path : String)
  | openFile (path : String)
  | output (line : OutLine)
deriving DecidableEq

/-- Event trace of `hash_file`: it opens the file (successfully or not) and
prints one line. -/
def hash_file_trace (fs : FileSystem) (path_buf : String) (digest : DigestType) : List Event :=
  [Event.openFile path_buf, Event.output (hash_file fs path_buf digest)]

/-- Event trace of `hash_files`: per checked file, either `hash_file`'s trace
or a single stderr line; no classification happens here. -/
def hash_files_trace (fs : FileSystem) (files : List CheckedFile) (digest : DigestType) :
    List Event :=
  match files with
  | [] => []
  | file :: rest =>
    (match file.hashable with
     | Except.ok _ => hash_file_trace fs file.file_path digest
     | Except.error err =>
        [Event.output ⟨OutChannel.stderr, err ++ ": unable to hash this file"⟩])
      ++ hash_files_trace fs rest digest

/-- Event trace of `main`: the `collect::<Vec<CheckedFile>>()` forces one
`CheckedFile::new` call — one metadata query — per argument, in argument
order, before `hash_files` is entered; only then does the hashing loop run. -/
def main_trace (fs : FileSystem) (args : Cli) : List Event :=
  args.filename.map Event.classify
    ++ hash_files_trace fs (args.filename.map (CheckedFile.new fs)) args.digest

/-- The byte content `"abc"` used by the known-vector tests. -/
def abcBytes : List Nat := [0x61, 0x62, 0x63]

/-- A concrete file system used to instantiate the theorems below: a regular
file `a.txt` containing `"abc"`, an empty regular file `empty.txt`, a
directory `d`, a socket `sock`, a file `gone.txt` that classifies as regular
but vanishes before it can be opened, and nothing else. -/
def fsDemo : FileSystem where
  lookup := fun p =>
    if p = "a.txt" then some (FsNode.file abcBytes)
    else if p = "empty.txt" then some (FsNode.file [])
    else if p = "d" then some FsNode.dir
    else if p = "sock" then some FsNode.special
    else if p = "gone.txt" then some (FsNode.file abcBytes)
    else none
  readResult := fun p =>
    if p = "a.txt" then Except.ok abcBytes
    else if p = "empty.txt" then Except.ok []
    else Except.error "No such file or directory (os error 2)"

/-- The single line the driver loop prints for one checked file, as a function
of that file alone; used to state that `hash_files` treats every file
independently. -/
def processLine (fs : FileSystem) (digest : DigestType) (file : CheckedFile) : OutLine :=
  match file.hashable with
  | Except.ok _ => hash_file fs file.file_path digest
  | Except.error err => ⟨OutChannel.stderr, err ++ ": unable to hash this file"⟩

/-- Reference character list of the hex encoding: two digits per byte, in
input order. -/
def hexChars : List Nat → List Char
  | [] => []
  | b :: rest => hexDigitChar (b / 16) :: hexDigitChar (b % 16) :: hexChars rest

/-- Recognises the sixteen lowercase hexadecimal digit characters. -/
def isLowerHex (c : Char) : Bool :=
  (48 ≤ c.toNat && c.toNat ≤ 57) || (97 ≤ c.toNat && c.toNat ≤ 102)

/-- Value of a lowercase hexadecimal digit character. -/
def hexCharVal (c : Char) : Nat :=
  if 97 ≤ c.toNat then c.toNat - 87 else c.toNat - 48

theorem hexChars_flatten (l : List Nat) :
    ((l.map byteToHex).map String.data).flatten = hexChars l := by
  induction l with
  | nil => rfl
  | cons b rest ih =>
    simp only [List.map_cons, List.flatten_cons, ih]
    rfl

theorem to_hex_lowercase_data (l : List Nat) :
    (to_hex_lowercase l).data = hexChars l := by
  rw [to_hex_lowercase, String.join_eq]
  exact hexChars_flatten l

theorem hexChars_length (l : List Nat) : (hexChars l).length = 2 * l.length := by
  induction l with
  | nil => rfl
  | cons b rest ih =>
    simp only [hexChars, List.length_cons, ih]
    omega

theorem to_hex_lowercase_length (l : List Nat) :
    (to_hex_lowercase l).length = 2 * l.length := by
  show (to_hex_lowercase l).data.length = 2 * l.length
  rw [to_hex_lowercase_data, hexChars_length]

theorem hexDigitChar_isLowerHex : ∀ n, n < 16 → isLowerHex (hexDigitChar n) = true := by
  decide

theorem hexCharVal_hexDigitChar : ∀ n, n < 16 → hexCharVal (hexDigitChar n) = n := by
  decide

theorem hexChars_isLowerHex (l : List Nat) (hl : ∀ b ∈ l, b < 256) :
    ∀ c ∈ hexChars l, isLowerHex c = true := by
  induction l with
  | nil => intro c hc; cases hc
  | cons b rest ih =>
    intro c hc
    have hb : b < 256 := hl b (List.mem_cons_self b rest)
    have hdiv : b / 16 < 16 := Nat.div_lt_of_lt_mul (by omega)
    have hmod : b % 16 < 16 := Nat.mod_lt b (by omega)
    rcases hc with _ | ⟨_, hc⟩
    · exact hexDigitChar_isLowerHex _ hdiv
    · rcases hc with _ | ⟨_, hc⟩
      · exact hexDigitChar_isLowerHex _ hmod
      · exact ih (fun x hx => hl x (List.mem_cons_of_mem b hx)) c hc

theorem to_hex_lowercase_isLowerHex (l : List Nat) (hl : ∀ b ∈ l, b < 256) :
    ∀ c ∈ (to_hex_lowercase l).data, isLowerHex c = true := by
  rw [to_hex_lowercase_data]
  exact hexChars_isLowerHex l hl

theorem beBytes_length (n v : Nat) : (beBytes n v).length = n := by
  simp [beBytes]

theorem beBytes_lt (n v : Nat) : ∀ b ∈ beBytes n v, b < 256 := by
  intro b hb
  simp only [beBytes, List.mem_map] at hb
  obtain ⟨i, _, rfl⟩ := hb
  exact Nat.mod_lt _ (by omega)

theorem wordsToBytes_length (wb : Nat) (l : List Nat) :
    (wordsToBytes wb l).length = wb * l.length := by
  induction l with
  | nil => simp [wordsToBytes]
  | cons w rest ih =>
    simp only [wordsToBytes, List.length_append, beBytes_length, ih, List.length_cons]
    rw [Nat.mul_succ]
    omega

theorem wordsToBytes_lt (wb : Nat) (l : List Nat) : ∀ b ∈ wordsToBytes wb l, b < 256 := by
  induction l with
  | nil => intro b hb; cases hb
  | cons w rest ih =>
    intro b hb
    rcases List.mem_append.mp hb with h | h
    · exact beBytes_lt wb w b h
    · exact ih b h

theorem shaCompress_length (p : ShaParams) (h block : List Nat) (hh : h.length = 8) :
    (shaCompress p h block).length = 8 := by
  simp only [shaCompress, List.length_zipWith, Hash8.toList, List.length_cons,
    List.length_nil, hh]
  rfl

theorem foldl_shaCompress_length (p : ShaParams) (blocks : List (List Nat)) (h : List Nat)
    (hh : h.length = 8) : (blocks.foldl (shaCompress p) h).length = 8 := by
  induction blocks generalizing h with
  | nil => exact hh
  | cons b rest ih => exact ih _ (shaCompress_length p h b hh)

theorem shaDigest_length (p : ShaParams) (msg : List Nat) (h0 : p.h0.length = 8) :
    (shaDigest p msg).length = p.bits / 8 * 8 := by
  rw [shaDigest, wordsToBytes_length, foldl_shaCompress_length p _ _ h0]

theorem shaDigest_lt (p : ShaParams) (msg : List Nat) :
    ∀ b ∈ shaDigest p msg, b < 256 := by
  rw [shaDigest]
  exact wordsToBytes_lt _ _

theorem sha256_length (msg : List Nat) : (sha256 msg).length = 32 := by
  rw [sha256, shaDigest_length sha256params msg rfl]
  rfl

theorem sha512_length (msg : List Nat) : (sha512 msg).length = 64 := by
  rw [sha512, shaDigest_length sha512params msg rfl]
  rfl

theorem sha256_lt (msg : List Nat) : ∀ b ∈ sha256 msg, b < 256 :=
  shaDigest_lt sha256params msg

theorem sha512_lt (msg : List Nat) : ∀ b ∈ sha512 msg, b < 256 :=
  shaDigest_lt sha512params msg

example : to_hex_lowercase (sha256 [0x61, 0x62, 0x63]) =
    "ba7816bf8f01cfea414140de5dae2223b00361a396177a9cb410ff61f20015ad" := by decide

example : to_hex_lowercase (sha512 [0x61, 0x62, 0x63]) =
    "ddaf35a193617abacc417349ae20413112e6fa4e89a97ea20a9eeee64b55d39a2192992a274fc1a836ba3c23a3feebbd454d4423643ce80e2a9ac94fa54ca49f" := by decide

example : to_hex_lowercase (sha256 []) =
    "e3b0c44298fc1c149afbf4c8996fb92427ae41e4649b934ca495991b7852b855" := by decide

example : to_hex_lowercase (sha512 []) =
    "cf83e1357eefb8bdf1542850d66d8007d620e4050b5715dc83f4a921d36ce9ce47d0d13c5d85f2b0ff8318d2877eec2f63b931bd47417a81a538327af927da3e" := by decide

theorem to_hex_lowercase_cons (b : Nat) (rest : List Nat) :
    to_hex_lowercase (b :: rest) = byteToHex b ++ to_hex_lowercase rest := by
  apply String.ext
  rw [String.data_append, to_hex_lowercase_data, to_hex_lowercase_data]
  rfl

/-- C2: for every byte sequence `B`, `to_hex_lowercase B` has length
`2 * len B`, consists only of lowercase hexadecimal digit characters, maps
each byte to exactly two zero-padded lowercase hex characters concatenated in
input byte order (byte `0x08` maps to `"08"`), and the empty sequence maps to
the empty string. -/
theorem claim_c2_to_hex (B : List Nat) (hB : ∀ b ∈ B, b < 256) :
    (to_hex_lowercase B).length = 2 * B.length ∧
    (∀ c ∈ (to_hex_lowercase B).data, isLowerHex c = true) ∧
    to_hex_lowercase [] = "" ∧
    (∀ b rest, to_hex_lowercase (b :: rest) = byteToHex b ++ to_hex_lowercase rest) ∧
    (∀ b ∈ B,
      (byteToHex b).length = 2 ∧
      (byteToHex b).data = [hexDigitChar (b / 16), hexDigitChar (b % 16)] ∧
      16 * hexCharVal (hexDigitChar (b / 16)) + hexCharVal (hexDigitChar (b % 16)) = b) ∧
    byteToHex 0x08 = "08" := by
  refine ⟨to_hex_lowercase_length B, to_hex_lowercase_isLowerHex B hB, rfl,
    to_hex_lowercase_cons, ?_, by decide⟩
  intro b hb
  have hblt : b < 256 := hB b hb
  have hdiv : b / 16 < 16 := Nat.div_lt_of_lt_mul (by omega)
  have hmod : b % 16 < 16 := Nat.mod_lt b (by omega)
  refine ⟨rfl, rfl, ?_⟩
  rw [hexCharVal_hexDigitChar _ hdiv, hexCharVal_hexDigitChar _ hmod]
  exact Nat.div_add_mod b 16

theorem claim_c2_witness :
    (to_hex_lowercase [0x08, 0xff]).length = 2 * 2 ∧
    to_hex_lowercase [] = "" ∧
    byteToHex 0x08 = "08" :=
  ⟨(claim_c2_to_hex [0x08, 0xff] (by decide)).1,
   (claim_c2_to_hex [0x08, 0xff] (by decide)).2.2.1,
   (claim_c2_to_hex [0x08, 0xff] (by decide)).2.2.2.2.2⟩

/-- C3: classification returns `Ok` exactly when the path (symlinks followed)
is an existing regular file; a directory yields the "is a directory, not a
file" error, and anything else (absent path or special file) yields the
"is not a directory or a file" error, in both cases with the path embedded in
front of the reason exactly as the two `format!` calls build it. -/
theorem claim_c3_classification (fs : FileSystem) (p : String) :
    ((CheckedFile.new fs p).hashable = Except.ok () ↔
      ∃ content, fs.lookup p = some (FsNode.file content)) ∧
    (fs.lookup p = some FsNode.dir →
      (CheckedFile.new fs p).hashable = Except.error (p ++ ": is a directory, not a file")) ∧
    ((fs.lookup p = none ∨ fs.lookup p = some FsNode.special) →
      (CheckedFile.new fs p).hashable = Except.error (p ++ ": is not a directory or a file")) ∧
    (CheckedFile.new fs p).file_path = p := by
  rcases hfs : fs.lookup p with _ | node
  · simp [CheckedFile.new, FileSystem.is_file, FileSystem.is_dir, hfs]
  · cases node <;> simp [CheckedFile.new, FileSystem.is_file, FileSystem.is_dir, hfs]

theorem claim_c3_witness :
    (CheckedFile.new fsDemo "a.txt").hashable = Except.ok () ∧
    (CheckedFile.new fsDemo "d").hashable =
      Except.error ("d" ++ ": is a directory, not a file") ∧
    (CheckedFile.new fsDemo "missing").hashable =
      Except.error ("missing" ++ ": is not a directory or a file") ∧
    (CheckedFile.new fsDemo "sock").hashable =
      Except.error ("sock" ++ ": is not a directory or a file") :=
  ⟨(claim_c3_classification fsDemo "a.txt").1.mpr ⟨abcBytes, rfl⟩,
   (claim_c3_classification fsDemo "d").2.1 rfl,
   (claim_c3_classification fsDemo "missing").2.2.1 (Or.inl rfl),
   (claim_c3_classification fsDemo "sock").2.2.1 (Or.inr rfl)⟩

theorem hash_files_eq_map (fs : FileSystem) (d : DigestType) (files : List CheckedFile) :
    hash_files fs files d = files.map (processLine fs d) := by
  induction files with
  | nil => rfl
  | cons f rest ih =>
    rw [hash_files, ih]
    rfl

/-- C5: the driver loop treats every path independently: its output is
pointwise the per-file line function, one line per input in input order, and
the line produced for a file at any position is determined by that file alone,
whatever precedes or follows it in the argument list. -/
theorem claim_c5_independent (fs : FileSystem) (d : DigestType) :
    (∀ files, hash_files fs files d = files.map (processLine fs d)) ∧
    (∀ files, (hash_files fs files d).length = files.length) ∧
    ∀ pre cf post,
      (hash_files fs (pre ++ cf :: post) d)[pre.length]? = some (processLine fs d cf) := by
  refine ⟨hash_files_eq_map fs d, ?_, ?_⟩
  · intro files
    rw [hash_files_eq_map, List.length_map]
  · intro pre cf post
    rw [hash_files_eq_map, List.map_append, List.map_cons,
      List.getElem?_append_right (by rw [List.length_map])]
    simp [List.length_map]

/-- C8: once the arguments parse (any algorithm, any path list, including the
empty one), the process exits with status 0 whatever the file system holds,
and with no file arguments it prints nothing at all. -/
theorem claim_c8_exit_zero (fs : FileSystem) (args : Cli) :
    (run_program fs (some args)).1 = 0 ∧
    (args.filename = [] → run_program fs (some args) = (0, [])) := by
  refine ⟨rfl, ?_⟩
  intro h
  obtain ⟨dg, fns⟩ := args
  have h' : fns = [] := h
  subst h'
  rfl

theorem claim_c8_witness :
    (run_program fsDemo (some ⟨DigestType.SHA256, []⟩)).1 = 0 ∧
    run_program fsDemo (some ⟨DigestType.SHA256, []⟩) = (0, []) :=
  ⟨(claim_c8_exit_zero fsDemo ⟨DigestType.SHA256, []⟩).1,
   (claim_c8_exit_zero fsDemo ⟨DigestType.SHA256, []⟩).2 rfl⟩

theorem claim_c5_witness :
    hash_files fsDemo (["a.txt", "missing"].map (CheckedFile.new fsDemo)) DigestType.SHA256 =
      (["a.txt", "missing"].map (CheckedFile.new fsDemo)).map
        (processLine fsDemo DigestType.SHA256) :=
  (claim_c5_independent fsDemo DigestType.SHA256).1
    (["a.txt", "missing"].map (CheckedFile.new fsDemo))

/-- C1: hashing a regular file whose content is exactly the three bytes
`"abc"` with SHA-256 returns the standard SHA-256 test vector, and hashing the
same content with SHA-512 returns the standard SHA-512 test vector. -/
theorem claim_c1_known_vectors (fs : FileSystem) (p : String) (content : List Nat)
    (hstat : fs.lookup p = some (FsNode.file content))
    (hread : fs.readResult p = Except.ok content)
    (habc : content = abcBytes) :
    perform_hash fs p DigestType.SHA256 =
      Except.ok "ba7816bf8f01cfea414140de5dae2223b00361a396177a9cb410ff61f20015ad" ∧
    perform_hash fs p DigestType.SHA512 =
      Except.ok "ddaf35a193617abacc417349ae20413112e6fa4e89a97ea20a9eeee64b55d39a2192992a274fc1a836ba3c23a3feebbd454d4423643ce80e2a9ac94fa54ca49f" := by
  subst habc
  constructor
  · show calculate_hash fs sha256 p = _
    unfold calculate_hash
    rw [hread]
    exact congrArg Except.ok (by decide)
  · show calculate_hash fs sha512 p = _
    unfold calculate_hash
    rw [hread]
    exact congrArg Except.ok (by decide)

theorem claim_c1_witness :
    perform_hash fsDemo "a.txt" DigestType.SHA256 =
      Except.ok "ba7816bf8f01cfea414140de5dae2223b00361a396177a9cb410ff61f20015ad" ∧
    perform_hash fsDemo "a.txt" DigestType.SHA512 =
      Except.ok "ddaf35a193617abacc417349ae20413112e6fa4e89a97ea20a9eeee64b55d39a2192992a274fc1a836ba3c23a3feebbd454d4423643ce80e2a9ac94fa54ca49f" :=
  claim_c1_known_vectors fsDemo "a.txt" abcBytes rfl rfl rfl

/-- C4: per processed path, a successful hash prints `<hex-digest>: <path>` on
standard output; an open or read failure prints `<path>: error during hashing:
<detail>`, also on standard output; a path rejected by classification makes
the driver loop print `<path>: <reason>: unable to hash this file` on
standard error. -/
theorem claim_c4_reporting (fs : FileSystem) (d : DigestType) (p : String) :
    (∀ h, perform_hash fs p d = Except.ok h →
      hash_file fs p d = ⟨OutChannel.stdout, h ++ ": " ++ p⟩) ∧
    (∀ e, perform_hash fs p d = Except.error e →
      hash_file fs p d = ⟨OutChannel.stdout, p ++ ": error during hashing: " ++ e⟩) ∧
    (∀ reason, (CheckedFile.new fs p).hashable = Except.error (p ++ ": " ++ reason) →
      hash_files fs [CheckedFile.new fs p] d =
        [⟨OutChannel.stderr, p ++ ": " ++ reason ++ ": unable to hash this file"⟩]) := by
  refine ⟨?_, ?_, ?_⟩
  · intro h hh
    unfold hash_file
    rw [hh]
  · intro e he
    unfold hash_file
    rw [he]
  · intro reason herr
    rw [hash_files_eq_map, List.map_cons, List.map_nil]
    unfold processLine
    rw [herr]

theorem claim_c4_witness :
    hash_file fsDemo "a.txt" DigestType.SHA256 =
      ⟨OutChannel.stdout,
        "ba7816bf8f01cfea414140de5dae2223b00361a396177a9cb410ff61f20015ad" ++ ": " ++ "a.txt"⟩ ∧
    hash_file fsDemo "gone.txt" DigestType.SHA256 =
      ⟨OutChannel.stdout,
        "gone.txt" ++ ": error during hashing: " ++ "No such file or directory (os error 2)"⟩ ∧
    hash_files fsDemo [CheckedFile.new fsDemo "d"] DigestType.SHA256 =
      [⟨OutChannel.stderr, "d" ++ ": " ++ "is a directory, not a file"
          ++ ": unable to hash this file"⟩] :=
  ⟨(claim_c4_reporting fsDemo DigestType.SHA256 "a.txt").1
      "ba7816bf8f01cfea414140de5dae2223b00361a396177a9cb410ff61f20015ad" rfl,
   (claim_c4_reporting fsDemo DigestType.SHA256 "gone.txt").2.1
      "No such file or directory (os error 2)" rfl,
   (claim_c4_reporting fsDemo DigestType.SHA256 "d").2.2
      "is a directory, not a file" rfl⟩

/-- C6: every digest string returned by a successful hash has length exactly
64 characters under SHA-256 and exactly 128 under SHA-512, and consists only
of lowercase hexadecimal characters. -/
theorem claim_c6_digest_shape (fs : FileSystem) (p : String) (d : DigestType) (h : String)
    (hok : perform_hash fs p d = Except.ok h) :
    h.length = (match d with | DigestType.SHA256 => 64 | DigestType.SHA512 => 128) ∧
    ∀ c ∈ h.data, isLowerHex c = true := by
  cases d
  case SHA256 =>
    replace hok : calculate_hash fs sha256 p = Except.ok h := hok
    unfold calculate_hash at hok
    rcases hr : fs.readResult p with e | content <;> rw [hr] at hok
    · cases hok
    · injection hok with hh
      subst hh
      constructor
      · show (to_hex_lowercase (sha256 content)).length = 64
        rw [to_hex_lowercase_length, sha256_length]
      · exact to_hex_lowercase_isLowerHex _ (sha256_lt content)
  case SHA512 =>
    replace hok : calculate_hash fs sha512 p = Except.ok h := hok
    unfold calculate_hash at hok
    rcases hr : fs.readResult p with e | content <;> rw [hr] at hok
    · cases hok
    · injection hok with hh
      subst hh
      constructor
      · show (to_hex_lowercase (sha512 content)).length = 128
        rw [to_hex_lowercase_length, sha512_length]
      · exact to_hex_lowercase_isLowerHex _ (sha512_lt content)

theorem claim_c6_witness :
    ("e3b0c44298fc1c149afbf4c8996fb92427ae41e4649b934ca495991b7852b855" : String).length
        = 64 ∧
    ∀ c ∈ ("e3b0c44298fc1c149afbf4c8996fb92427ae41e4649b934ca495991b7852b855" :
        String).data, isLowerHex c = true :=
  claim_c6_digest_shape fsDemo "empty.txt" DigestType.SHA256
    "e3b0c44298fc1c149afbf4c8996fb92427ae41e4649b934ca495991b7852b855" rfl

/-- C7 counterexample: in the concrete run over the argument list
`["a.txt", "empty.txt"]` against `fsDemo`, both classification events precede
the first file open — the second path is classified strictly before the first
path is hashed, so classification of path i does not wait for path i-1 to be
classified, reported and hashed. -/
theorem claim_c7_counterexample :
    (main_trace fsDemo ⟨DigestType.SHA256, ["a.txt", "empty.txt"]⟩).take 3 =
      [Event.classify "a.txt", Event.classify "empty.txt", Event.openFile "a.txt"] ∧
    (main_trace fsDemo ⟨DigestType.SHA256, ["a.txt", "empty.txt"]⟩).indexOf
        (Event.classify "empty.txt") <
      (main_trace fsDemo ⟨DigestType.SHA256, ["a.txt", "empty.txt"]⟩).indexOf
        (Event.openFile "a.txt") := by
  constructor
  · decide
  · decide

/-- C7 amended: the driver classifies all paths up front — one metadata query
per argument, in command-line order, before any hashing — and only then
processes the checked files in order; no classification event occurs during
the processing phase. -/
theorem claim_c7_amended (fs : FileSystem) (args : Cli) :
    main_trace fs args =
      args.filename.map Event.classify
        ++ hash_files_trace fs (args.filename.map (CheckedFile.new fs)) args.digest ∧
    ∀ q, Event.classify q ∉
      hash_files_trace fs (args.filename.map (CheckedFile.new fs)) args.digest := by
  refine ⟨rfl, ?_⟩
  intro q
  generalize args.filename.map (CheckedFile.new fs) = files
  induction files with
  | nil =>
    intro hmem
    cases hmem
  | cons f rest ih =>
    intro hmem
    rw [hash_files_trace] at hmem
    rcases List.mem_append.mp hmem with hl | hr
    · rcases hf : f.hashable with e | u <;> rw [hf] at hl <;>
        simp [hash_file_trace] at hl
    · exact ih hr

theorem claim_c7_amended_witness :
    main_trace fsDemo ⟨DigestType.SHA512, ["a.txt", "d"]⟩ =
      (["a.txt", "d"].map Event.classify)
        ++ hash_files_trace fsDemo (["a.txt", "d"].map (CheckedFile.new fsDemo))
            DigestType.SHA512 ∧
    Event.classify "zzz" ∉
      hash_files_trace fsDemo (["a.txt", "d"].map (CheckedFile.new fsDemo))
        DigestType.SHA512 :=
  ⟨(claim_c7_amended fsDemo ⟨DigestType.SHA512, ["a.txt", "d"]⟩).1,
   (claim_c7_amended fsDemo ⟨DigestType.SHA512, ["a.txt", "d"]⟩).2 "zzz"⟩

/-- C10: hashing an empty regular file succeeds and returns the standard
digest of the empty input — 64 hex characters for SHA-256, 128 for SHA-512 —
never an empty string or an error. -/
theorem claim_c10_empty_file (fs : FileSystem) (p : String) (content : List Nat)
    (hstat : fs.lookup p = some (FsNode.file content))
    (hread : fs.readResult p = Except.ok content)
    (hempty : content = []) :
    perform_hash fs p DigestType.SHA256 =
      Except.ok "e3b0c44298fc1c149afbf4c8996fb92427ae41e4649b934ca495991b7852b855" ∧
    perform_hash fs p DigestType.SHA512 =
      Except.ok "cf83e1357eefb8bdf1542850d66d8007d620e4050b5715dc83f4a921d36ce9ce47d0d13c5d85f2b0ff8318d2877eec2f63b931bd47417a81a538327af927da3e" ∧
    ("e3b0c44298fc1c149afbf4c8996fb92427ae41e4649b934ca495991b7852b855" :
      String).length = 64 ∧
    ("cf83e1357eefb8bdf1542850d66d8007d620e4050b5715dc83f4a921d36ce9ce47d0d13c5d85f2b0ff8318d2877eec2f63b931bd47417a81a538327af927da3e" :
      String).length = 128 := by
  subst hempty
  refine ⟨?_, ?_, by decide, by decide⟩
  · show calculate_hash fs sha256 p = _
    unfold calculate_hash
    rw [hread]
    exact congrArg Except.ok (by decide)
  · show calculate_hash fs sha512 p = _
    unfold calculate_hash
    rw [hread]
    exact congrArg Except.ok (by decide)

theorem claim_c10_witness :
    perform_hash fsDemo "empty.txt" DigestType.SHA256 =
      Except.ok "e3b0c44298fc1c149afbf4c8996fb92427ae41e4649b934ca495991b7852b855" ∧
    perform_hash fsDemo "empty.txt" DigestType.SHA512 =
      Except.ok "cf83e1357eefb8bdf1542850d66d8007d620e4050b5715dc83f4a921d36ce9ce47d0d13c5d85f2b0ff8318d2877eec2f63b931bd47417a81a538327af927da3e" ∧
    ("e3b0c44298fc1c149afbf4c8996fb92427ae41e4649b934ca495991b7852b855" :
      String).length = 64 ∧
    ("cf83e1357eefb8bdf1542850d66d8007d620e4050b5715dc83f4a921d36ce9ce47d0d13c5d85f2b0ff8318d2877eec2f63b931bd47417a81a538327af927da3e" :
      String).length = 128 :=
  claim_c10_empty_file fsDemo "empty.txt" [] rfl rfl rfl

end Digest
